import Mathlib

/-!
Verification development for the rhombus-tech/vm verification core.

Each section embeds one component of the Go source as executable Lean
definitions, keeping the source's names, control flow and data layout:

* Roughtime timestamp quorum and staleness window
  (`src/unnamed/part_004`, `src/unnamed/part_005`, package `actions`);
* the state-transition and batch-conflict verifiers
  (`src/verifier/batch.go`, `src/unnamed/part_010`, package `verifier`);
* region actions (`src/actions/region.go`);
* attestation-pair verification (`src/unnamed/part_009`);
* the code-format validators (`src/unnamed/part_002`, `src/vm/validator.go`).

Go `[]byte` values are `List Nat` of byte values, `uint64` arithmetic is `Nat`
arithmetic with explicit reduction modulo `2 ^ 64` where the source can wrap,
Go maps are association lists with first-match lookup, and fallible functions
return `Except`.
-/

namespace RhombusVM

/-- Go `uint64` modulus. -/
def U64 : Nat := 2 ^ 64

/-- A Roughtime stamp `{ServerID, Time, Signature}` (`RoughtimeStamp` in
`src/unnamed/part_004` lines 21-25; `Time` is a Go `uint64`). -/
structure RoughtimeStamp where
  serverID : String
  time : Nat
  signatureBytes : List Nat
deriving DecidableEq

/-- Error kinds of the TEE-execution helpers (`src/unnamed/part_004` lines 12-19). -/
inductive TeeErr where
  | invalidTimeStamps
  | staleTimeStamp
deriving DecidableEq

/-- Model of `verifyRoughtimeStamp` (`src/unnamed/part_004` lines 228-231): the
source body is a placeholder that returns `true` unconditionally. -/
def verifyRoughtimeStamp (_stamp : RoughtimeStamp) : Bool := true

/-- Insert a value into an already ascending list, keeping it ascending. -/
def insertAsc (x : Nat) : List Nat → List Nat
  | [] => [x]
  | y :: ys => if x ≤ y then x :: y :: ys else y :: insertAsc x ys

/-- Ascending sort of the collected stamp times; models the
`sort.Slice(times, ...)` ascending sort in `verifyTimeStamps`. -/
def sortAsc (l : List Nat) : List Nat := l.foldr insertAsc []

/-- Model of `verifyTimeStamps` (`src/unnamed/part_004` lines 208-226, identical
in `src/unnamed/part_005` lines 293-311): requires at least 3 stamps, verifies
each stamp, sorts the collected times ascending, and returns the element at
index `len(times)/2`. -/
def verifyTimeStamps (stamps : List RoughtimeStamp) : Except TeeErr Nat :=
  if stamps.length < 3 then .error .invalidTimeStamps
  else if stamps.any (fun s => !(verifyRoughtimeStamp s)) then .error .invalidTimeStamps
  else
    let times := sortAsc (stamps.map (·.time))
    .ok (times.getD (times.length / 2) 0)

/-- Model of `isTimeStampValid` (`src/unnamed/part_004` lines 233-241, identical
in `src/unnamed/part_005` lines 318-326). Both arguments are Go `uint64`
values, so `diff := currentTime - stampTime` is subtraction modulo `2 ^ 64`;
the source's `if diff < 0 { diff = -diff }` branch can never fire on an
unsigned integer, which the `Nat` comparison mirrors exactly (unsigned Go
negation would be `2 ^ 64 - diff` modulo `2 ^ 64`). -/
def isTimeStampValid (stampTime currentTime : Nat) : Bool :=
  let maxDrift := 5 * 60
  let diff := (currentTime % U64 + U64 - stampTime % U64) % U64
  let diff := if diff < 0 then (U64 - diff) % U64 else diff
  decide (diff ≤ maxDrift)

/-- Size limit for object code (`src/consts/consts.go` `MaxCodeSize`, 1 MiB). -/
def MaxCodeSize : Nat := 1024 * 1024

/-- Size limit for object storage (`src/consts/consts.go` `MaxStorageSize`, 1 MiB). -/
def MaxStorageSize : Nat := 1024 * 1024

/-- Maximum number of actions in a batch (`src/verifier/batch.go` line 23). -/
def MaxBatchSize : Nat := 256

/-- The ShuttleVM actions dispatched by the state and batch verifiers
(`src/actions/handler.go`: `CreateObjectAction`, `DeleteObjectAction`,
`ChangeObjectCodeAction`, `ChangeObjectStorageAction`, `SetInputObjectAction`,
`SendEventAction` with its `Priority` ordering token). -/
inductive Action where
  | createObject (id : String) (code objStorage : List Nat)
  | deleteObject (id : String)
  | changeObjectCode (id : String) (newCode : List Nat)
  | changeObjectStorage (id : String) (newStorage : List Nat)
  | setInputObject (id : String)
  | sendEvent (priority : Nat) (idTo : String) (functionCall : String) (parameters : List Nat)
deriving DecidableEq

/-- Error kinds of the verifier package (`src/verifier/batch.go` lines 16-20,
`src/unnamed/part_010` lines 150-157) together with the per-action errors it
propagates (`src/actions/shuttle.go` lines 14-21). `invalidEventOrder` and
`circularDependency` are declared in the source as `ErrInvalidEventOrder` and
`ErrCircularDependency`. -/
inductive VerifierErr where
  | batchLimit
  | duplicateAction
  | conflictingAction
  | circularDependency
  | invalidEventOrder
  | objectExists
  | objectNotFound
  | codeTooLarge
  | storageTooLarge
deriving DecidableEq

/-- Read-only view of persisted state consumed by the verifier: whether an
object with a given ID exists (`storage.GetObject` results are only compared
against `nil` in the verification paths). -/
def ObjectStore : Type := String → Bool

/-- Go map lookup, modelled on an association list whose newest binding comes
first. -/
def mapGet {κ α : Type} [BEq κ] (m : List (κ × α)) (k : κ) : Option α :=
  (m.find? (fun p => p.1 == k)).map (·.2)

/-- Go map update: the new binding shadows any older one. -/
def mapSet {κ α : Type} (m : List (κ × α)) (k : κ) (v : α) : List (κ × α) :=
  (k, v) :: m

/-- Per-object modification record built by the analysis pass
(`modificationInfo`, `src/verifier/batch.go` lines 35-40). -/
structure ModificationInfo where
  created : Bool := false
  deleted : Bool := false
  codeChange : Bool := false
  storageChange : Bool := false
deriving DecidableEq

/-- Queued-event record (`eventInfo`, `src/verifier/batch.go` lines 42-45). -/
structure EventInfo where
  priority : Nat
  functionCall : String
deriving DecidableEq

/-- Model of `verifySuperObjectCaller` (`src/unnamed/part_010` lines 349-352):
the source body is a placeholder that always succeeds. -/
def verifySuperObjectCaller : Except VerifierErr Unit := .ok ()

/-- Model of `verifyFunctionExists` (`src/unnamed/part_010` lines 354-357):
the source body is a placeholder that always succeeds. -/
def verifyFunctionExists (_functionCall : String) : Except VerifierErr Unit := .ok ()

/-- Model of `VerifyObjectState` (`src/unnamed/part_010` lines 202-218): code
and storage sizes against the 1 MiB limits. -/
def VerifyObjectState (code objStorage : List Nat) : Except VerifierErr Unit :=
  if code.length > MaxCodeSize then .error .codeTooLarge
  else if objStorage.length > MaxStorageSize then .error .storageTooLarge
  else .ok ()

/-- Model of `VerifyStateTransition` and its helpers (`src/unnamed/part_010`
lines 244-357, the revision whose action set matches the dispatch in
`src/verifier/batch.go`). -/
def VerifyStateTransition (st : ObjectStore) : Action → Except VerifierErr Unit
  | .createObject id code objStorage =>
    if st id then .error .objectExists
    else VerifyObjectState code objStorage
  | .deleteObject id => do
    verifySuperObjectCaller
    if st id then .ok () else .error .objectNotFound
  | .changeObjectCode _ newCode => do
    verifySuperObjectCaller
    if newCode.length > MaxCodeSize then .error .codeTooLarge else .ok ()
  | .changeObjectStorage _ newStorage =>
    if newStorage.length > MaxStorageSize then .error .storageTooLarge else .ok ()
  | .setInputObject id => do
    verifySuperObjectCaller
    if st id then .ok () else .error .objectNotFound
  | .sendEvent _ idTo functionCall parameters =>
    if !(st idTo) then .error .objectNotFound
    else do
      verifyFunctionExists functionCall
      if parameters.length > MaxStorageSize then .error .storageTooLarge else .ok ()

/-- Model of `analyzeActions` (`src/verifier/batch.go` lines 82-134): the first
pass over the batch, collecting per-object modification records and per-target
event queues and rejecting duplicate or conflicting modifications. The map
arguments thread the `BatchVerifier` fields `objectModifications` and
`eventQueue`. -/
def analyzeActions (mods : List (String × ModificationInfo))
    (queue : List (String × List EventInfo)) :
    List Action →
    Except VerifierErr (List (String × ModificationInfo) × List (String × List EventInfo))
  | [] => .ok (mods, queue)
  | act :: rest =>
    match act with
    | .createObject id _ _ =>
      match mapGet mods id with
      | some info =>
        if info.created then .error .duplicateAction
        else if info.deleted then .error .conflictingAction
        else analyzeActions (mapSet mods id { created := true }) queue rest
      | none => analyzeActions (mapSet mods id { created := true }) queue rest
    | .deleteObject id =>
      match mapGet mods id with
      | some info =>
        if info.deleted then .error .duplicateAction
        else if info.created || info.codeChange || info.storageChange then
          .error .conflictingAction
        else analyzeActions (mapSet mods id { deleted := true }) queue rest
      | none => analyzeActions (mapSet mods id { deleted := true }) queue rest
    | .changeObjectCode id _ =>
      match mapGet mods id with
      | some info =>
        if info.codeChange then .error .duplicateAction
        else if info.deleted then .error .conflictingAction
        else analyzeActions (mapSet mods id { codeChange := true }) queue rest
      | none => analyzeActions (mapSet mods id { codeChange := true }) queue rest
    | .sendEvent priority idTo functionCall _ =>
      let events := (mapGet queue idTo).getD []
      if events.any (fun e => e.priority == priority) then .error .duplicateAction
      else analyzeActions mods (mapSet queue idTo (events ++ [⟨priority, functionCall⟩])) rest
    | _ => analyzeActions mods queue rest

/-- Model of `verifyCreateInBatch` (`src/verifier/batch.go` lines 160-166). -/
def verifyCreateInBatch (mods : List (String × ModificationInfo)) (id : String) :
    Except VerifierErr Unit :=
  match mapGet mods id with
  | some info => if info.deleted then .error .conflictingAction else .ok ()
  | none => .ok ()

/-- Model of `verifyDeleteInBatch` (`src/verifier/batch.go` lines 168-174). -/
def verifyDeleteInBatch (queue : List (String × List EventInfo)) (id : String) :
    Except VerifierErr Unit :=
  match mapGet queue id with
  | some events => if events.length > 0 then .error .conflictingAction else .ok ()
  | none => .ok ()

/-- Model of `verifyCodeChangeInBatch` (`src/verifier/batch.go` lines 176-184). -/
def verifyCodeChangeInBatch (mods : List (String × ModificationInfo)) (id : String) :
    Except VerifierErr Unit :=
  match mapGet mods id with
  | some info =>
    if info.deleted || (info.created && info.codeChange) then .error .conflictingAction
    else .ok ()
  | none => .ok ()

/-- Model of `verifyEventInBatch` (`src/verifier/batch.go` lines 186-194). -/
def verifyEventInBatch (mods : List (String × ModificationInfo)) (idTo : String) :
    Except VerifierErr Unit :=
  match mapGet mods idTo with
  | some info => if info.deleted then .error .conflictingAction else .ok ()
  | none => .ok ()

/-- Model of `verifyAction` (`src/verifier/batch.go` lines 137-156): individual
verification followed by the batch-context check for the action's kind. -/
def verifyAction (st : ObjectStore) (mods : List (String × ModificationInfo))
    (queue : List (String × List EventInfo)) (act : Action) : Except VerifierErr Unit := do
  VerifyStateTransition st act
  match act with
  | .createObject id _ _ => verifyCreateInBatch mods id
  | .deleteObject id => verifyDeleteInBatch queue id
  | .changeObjectCode id _ => verifyCodeChangeInBatch mods id
  | .sendEvent _ idTo _ _ => verifyEventInBatch mods idTo
  | _ => .ok ()

/-- Model of `dfsEventCycle` (`src/verifier/batch.go` lines 225-243): marks the
node visited and on the path, walks its queued events, and unmarks the path.
The source's loop over `bv.eventQueue[objectID]` has an empty body (only a
comment noting that deriving dependencies would require knowledge of function
calls), so no edges are followed and no recursive call is made. -/
def dfsEventCycle (objectID : String) (visited path : List String) :
    Except VerifierErr (List String × List String) :=
  if path.contains objectID then .error .circularDependency
  else if visited.contains objectID then .ok (visited, path)
  else
    let visited1 := objectID :: visited
    let path1 := objectID :: path
    let path2 := path1.erase objectID
    .ok (visited1, path2)

/-- The loop of `verifyNoEventCycles` over the event-queue keys, threading the
`visited` and `path` sets through the successive DFS calls. -/
def verifyCyclesFrom : List String → List String → List String → Except VerifierErr Unit
  | [], _, _ => .ok ()
  | id :: keys, visited, path =>
    match dfsEventCycle id visited path with
    | .error e => .error e
    | .ok (v, p) => verifyCyclesFrom keys v p

/-- Model of `verifyNoEventCycles` (`src/verifier/batch.go` lines 213-223). -/
def verifyNoEventCycles (queue : List (String × List EventInfo)) : Except VerifierErr Unit :=
  verifyCyclesFrom (queue.map (·.1)) [] []

/-- Model of `verifyBatchResources` (`src/verifier/batch.go` lines 245-253):
the source body is a placeholder that always succeeds. -/
def verifyBatchResources : Except VerifierErr Unit := .ok ()

/-- Model of `verifyBatchConstraints` (`src/verifier/batch.go` lines 197-209). -/
def verifyBatchConstraints (queue : List (String × List EventInfo)) :
    Except VerifierErr Unit := do
  verifyNoEventCycles queue
  verifyBatchResources

/-- The second-pass loop of `VerifyBatch` over all actions. -/
def verifyAllActions (st : ObjectStore) (mods : List (String × ModificationInfo))
    (queue : List (String × List EventInfo)) : List Action → Except VerifierErr Unit
  | [] => .ok ()
  | act :: rest =>
    match verifyAction st mods queue act with
    | .error e => .error e
    | .ok _ => verifyAllActions st mods queue rest

/-- Model of `VerifyBatch` (`src/verifier/batch.go` lines 56-79): the batch
size limit, the analysis pass, the per-action pass against the collected maps,
and the global constraints. -/
def VerifyBatch (st : ObjectStore) (acts : List Action) : Except VerifierErr Unit :=
  if acts.length > MaxBatchSize then .error .batchLimit
  else
    match analyzeActions [] [] acts with
    | .error e => .error e
    | .ok (mods, queue) => do
      verifyAllActions st mods queue acts
      verifyBatchConstraints queue

/-- An object store in which every object exists. -/
def allObjects : ObjectStore := fun _ => true

/-- An empty object store. -/
def noObjects : ObjectStore := fun _ => false

/-- Two events to the same target whose ordering tokens strictly decrease in
batch order (priority 2 first, then priority 1). -/
def decreasingPriorityBatch : List Action :=
  [.sendEvent 2 "B" "f" [], .sendEvent 1 "B" "f" []]

/-- A batch realising the mutually-recursive event routing A to B and B to A
within one batch: an event to B (emitted by A's code) and an event to A
(emitted by B's code). -/
def cyclicRoutingBatch : List Action :=
  [.sendEvent 1 "B" "callB" [], .sendEvent 1 "A" "callA" []]

/-- Spec-style median: the element at index `⌊n/2⌋` of the ascending sort.
For odd-length lists this is the middle element; for even-length lists it is
the upper of the two middle elements. -/
def medianAtHalf (l : List Nat) : Nat := (sortAsc l).getD (l.length / 2) 0

/-- The even-count stamp list named by the spec, with times 100, 104, 108, 112. -/
def evenStamps : List RoughtimeStamp :=
  [⟨"s0", 100, []⟩, ⟨"s1", 104, []⟩, ⟨"s2", 108, []⟩, ⟨"s3", 112, []⟩]

/-- Error kinds of the region actions (`src/actions/region.go` lines 13-18). -/
inductive RegionErr where
  | regionExists
  | regionNotFound
  | invalidTEE
  | invalidRegionID
deriving DecidableEq

/-- Model of `CreateRegionAction` (`src/actions/region.go` lines 22-25):
a region ID and the list of TEE addresses (opaque byte identities). -/
structure CreateRegionAction where
  regionID : String
  tees : List (List Nat)
deriving DecidableEq

/-- Model of `UpdateRegionAction` (`src/actions/region.go` lines 76-80). -/
structure UpdateRegionAction where
  regionID : String
  addTEEs : List (List Nat)
  remTEEs : List (List Nat)
deriving DecidableEq

/-- Model of `CreateRegionAction.Verify` (`src/actions/region.go` lines 61-74). -/
def CreateRegionAction.Verify (a : CreateRegionAction) : Except RegionErr Unit :=
  if a.regionID.length = 0 ∨ a.regionID.length > 256 then .error .invalidRegionID
  else if a.tees.length = 0 then .error .invalidTEE
  else if a.tees.any (fun tee => tee.length == 0) then .error .invalidTEE
  else .ok ()

/-- Model of `UpdateRegionAction.Verify` (`src/actions/region.go` lines 132-150):
the region ID must be well-formed, at least one add or remove must be present,
and every listed address must be non-empty. There is no check relating the
removals to the region's current TEE list or to what remains after them. -/
def UpdateRegionAction.Verify (a : UpdateRegionAction) : Except RegionErr Unit :=
  if a.regionID.length = 0 ∨ a.regionID.length > 256 then .error .invalidRegionID
  else if a.addTEEs.length = 0 ∧ a.remTEEs.length = 0 then .error .invalidTEE
  else if a.addTEEs.any (fun tee => tee.length == 0) then .error .invalidTEE
  else if a.remTEEs.any (fun tee => tee.length == 0) then .error .invalidTEE
  else .ok ()

/-- Persisted region state: the stored TEE list under the `region:` key for
each region ID, or `none` when the region does not exist. -/
def RegionState : Type := String → Option (List (List Nat))

/-- Store a region's TEE list (`vm.State().Set` on the `region:` key). -/
def setRegion (st : RegionState) (id : String) (tees : List (List Nat)) : RegionState :=
  fun k => if k = id then some tees else st k

/-- Model of `CreateRegionAction.Execute` (`src/actions/region.go` lines
210-241): fails when the region exists, otherwise stores the proposed TEE
list; the `Bool` is the result's `Success` field. -/
def CreateRegionAction.Execute (st : RegionState) (a : CreateRegionAction) :
    Except RegionErr (RegionState × Bool) :=
  match st a.regionID with
  | some _ => .error .regionExists
  | none => .ok (setRegion st a.regionID a.tees, true)

/-- Model of `UpdateRegionAction.Execute` (`src/actions/region.go` lines
243-292): loads the current TEE list, removes the first occurrence of each
`RemTEEs` entry, appends all `AddTEEs`, and stores the result. There is no
check that the stored list is non-empty. -/
def UpdateRegionAction.Execute (st : RegionState) (a : UpdateRegionAction) :
    Except RegionErr (RegionState × Bool) :=
  match st a.regionID with
  | none => .error .regionNotFound
  | some currentTEEs =>
    let afterRemove := a.remTEEs.foldl (fun tees tee => tees.erase tee) currentTEEs
    let newTEEs := afterRemove ++ a.addTEEs
    .ok (setRegion st a.regionID newTEEs, true)

/-- A region state holding one region `r` whose TEE list has the single
address `[1]`. -/
def regionStateOneTEE : RegionState := fun id => if id = "r" then some [[1]] else none

/-- An update of region `r` that removes its only TEE address and adds none. -/
def removeOnlyTEE : UpdateRegionAction := ⟨"r", [], [[1]]⟩

/-- Error kinds of attestation verification (`src/unnamed/part_009` lines
18-23 and `src/storage/errors.go`): the verifier declares and uses the generic
`ErrInvalidAttestation`; `ErrAttestationMismatch` is the distinct pair-mismatch
error declared in `src/storage/errors.go` line 31 and `src/consts/types.go`. -/
inductive AttErr where
  | invalidAttestation
  | attestationMismatch
  | timestampOutOfRange
deriving DecidableEq

/-- A TEE attestation `{EnclaveID, Measurement, Timestamp, Data, Signature}`.
Field names and types follow the uses in `src/unnamed/part_009` (byte-sequence
`EnclaveID` and `Data` compared with `bytes.Equal`, string `Timestamp`) and the
construction in the second half of `src/vm/validator.go` lines 227-247. -/
structure TEEAttestation where
  enclaveID : List Nat
  measurement : List Nat
  timestamp : String
  data : List Nat
  signatureBytes : List Nat
deriving DecidableEq

/-- Model of `isTimeInWindow` (`src/unnamed/part_009` lines 247-250): the
source body is a placeholder that returns `true` unconditionally. -/
def isTimeInWindow (_timestamp _currentTime : String) : Bool := true

/-- Model of `verifyAttestation` (`src/unnamed/part_009` lines 72-93): the
enclave ID must be one of the region's authorized TEE addresses, and the
timestamp must be inside the window relative to `now` (the external
`roughtime.Now()` value). No signature check appears in this revision. -/
def verifyAttestation (now : String) (tees : List (List Nat)) (att : TEEAttestation) :
    Except AttErr Unit :=
  let found := tees.any (fun tee => tee == att.enclaveID)
  if !found then .error .invalidAttestation
  else if !(isTimeInWindow att.timestamp now) then .error .timestampOutOfRange
  else .ok ()

/-- Model of `verifyAttestationPair` (`src/unnamed/part_009` lines 95-113):
verifies each attestation individually, then requires identical `Timestamp`
and identical `Data`; each cross-check failure returns `ErrInvalidAttestation`. -/
def verifyAttestationPair (now : String) (tees : List (List Nat))
    (att0 att1 : TEEAttestation) : Except AttErr Unit := do
  verifyAttestation now tees att0
  verifyAttestation now tees att1
  if att0.timestamp ≠ att1.timestamp then .error .invalidAttestation
  else if !(att0.data == att1.data) then .error .invalidAttestation
  else .ok ()

/-- A concrete attestation pair whose members are both authorized for the
region below but carry different timestamps. -/
def attA : TEEAttestation := ⟨[1], [7], "t1", [9], [4]⟩

/-- Second member of the concrete pair: same data, different timestamp. -/
def attB : TEEAttestation := ⟨[2], [7], "t2", [9], [4]⟩

/-- The authorized TEE list containing both enclave IDs of the pair above. -/
def pairTees : List (List Nat) := [[1], [2]]

/-- Error kinds of the code-format validators (`src/unnamed/part_002` lines
9-16; `src/vm/validator.go` declares the same set minus `InvalidTEEFormat`). -/
inductive CodeErr where
  | invalidFormat
  | unsupportedFormat
  | malformedCode
  | codeTooLarge
  | invalidHeader
  | invalidTEEFormat
deriving DecidableEq

/-- The 8-byte header magic `"\x00SHUTTLE"` (`src/unnamed/part_002` line 25). -/
def HeaderMagic : List Nat := [0x00, 0x53, 0x48, 0x55, 0x54, 0x54, 0x4C, 0x45]

/-- Header size in bytes (`src/unnamed/part_002` line 26). -/
def HeaderSize : Nat := 16

/-- Format identifier for raw bytecode (`src/unnamed/part_002` line 20). -/
def FormatRaw : Nat := 1

/-- Format identifier for WASM (`src/unnamed/part_002` line 21). -/
def FormatWasm : Nat := 2

/-- Format identifier for the custom table format (`src/unnamed/part_002` line 22). -/
def FormatCustom : Nat := 3

/-- TEE type identifier for SGX (`src/consts/consts.go` line 22). -/
def TEETypeSGX : Nat := 1

/-- TEE type identifier for SEV (`src/consts/consts.go` line 23). -/
def TEETypeSEV : Nat := 2

/-- The 8-byte WASM module magic `00 61 73 6D 01 00 00 00`
(`src/unnamed/part_002` line 157). -/
def wasmMagic : List Nat := [0x00, 0x61, 0x73, 0x6D, 0x01, 0x00, 0x00, 0x00]

/-- Little-endian `uint32` of the first four bytes
(`binary.LittleEndian.Uint32(code[:4])`). -/
def le32 (code : List Nat) : Nat :=
  code.getD 0 0 + code.getD 1 0 * 256 + code.getD 2 0 * 65536 + code.getD 3 0 * 16777216

/-- The three registered `FormatValidator` implementations of
`src/unnamed/part_002`: `RawValidator`, `WasmValidator`, `CustomValidator`. -/
inductive FormatKind where
  | raw
  | wasm
  | custom
deriving DecidableEq

/-- The `Validate` methods of the three format validators
(`src/unnamed/part_002` lines 141-189): raw code must be non-empty, WASM code
must begin with the module magic, custom code must begin with a little-endian
table size not exceeding the remaining length. -/
def FormatKind.validate : FormatKind → List Nat → Except CodeErr Unit
  | .raw, code => if code.length = 0 then .error .malformedCode else .ok ()
  | .wasm, code =>
    if code.length < 8 then .error .malformedCode
    else if !(code.take 8 == wasmMagic) then .error .invalidFormat
    else .ok ()
  | .custom, code =>
    if code.length < 4 then .error .malformedCode
    else if code.length < le32 code + 4 then .error .malformedCode
    else .ok ()

/-- The `ValidateForTEE` methods (`src/unnamed/part_002` lines 148-151,
170-173, 191-194): raw format is categorically disallowed inside any TEE; the
WASM and custom TEE-specific checks are no-ops. -/
def FormatKind.validateForTEE : FormatKind → List Nat → Nat → Except CodeErr Unit
  | .raw, _, _ => .error .invalidTEEFormat
  | .wasm, _, _ => .ok ()
  | .custom, _, _ => .ok ()

/-- Model of `CodeValidator` (`src/unnamed/part_002` lines 38-42): the size
limit, the format registry, and the TEE capability table. -/
structure CodeValidator where
  maxSize : Nat
  formats : List (Nat × FormatKind)
  teeFormats : List (Nat × List Nat)

/-- Model of `NewCodeValidator` (`src/unnamed/part_002` lines 51-68): registers
the three format validators and the TEE capability table, SGX supporting WASM
only and SEV supporting WASM and custom. -/
def NewCodeValidator (maxSize : Nat) : CodeValidator :=
  { maxSize := maxSize
    formats := [(FormatRaw, .raw), (FormatWasm, .wasm), (FormatCustom, .custom)]
    teeFormats := [(TEETypeSGX, [FormatWasm]), (TEETypeSEV, [FormatWasm, FormatCustom])] }

/-- Model of `isFormatSupportedByTEE` (`src/unnamed/part_002` lines 125-136). -/
def isFormatSupportedByTEE (cv : CodeValidator) (format teeType : Nat) : Bool :=
  match mapGet cv.teeFormats teeType with
  | none => false
  | some supported => supported.any (fun f => f == format)

/-- Model of `ValidateCode` (`src/unnamed/part_002` lines 71-113): size limit,
minimum header length, magic bytes, header parse (format at byte 8, version at
byte 9, TEE type at byte 10), format registry lookup, TEE capability check,
then the format-specific and TEE-specific body checks. -/
def ValidateCode (cv : CodeValidator) (code : List Nat) : Except CodeErr Unit :=
  if code.length > cv.maxSize then .error .codeTooLarge
  else if code.length < HeaderSize then .error .invalidHeader
  else if !(code.take 8 == HeaderMagic) then .error .invalidHeader
  else
    let format := code.getD 8 0
    let teeType := code.getD 10 0
    match mapGet cv.formats format with
    | none => .error .unsupportedFormat
    | some fv =>
      if !(isFormatSupportedByTEE cv format teeType) then .error .invalidTEEFormat
      else
        match fv.validate (code.drop HeaderSize) with
        | .error e => .error e
        | .ok _ => fv.validateForTEE (code.drop HeaderSize) teeType

/-- The format validators of `src/vm/validator.go` (the earlier revision of
the same file): its `RawValidator.Validate` (lines 103-117) additionally reads
a function-count byte; the WASM and custom validators are as in `part_002`. -/
def VmFormatKind.validate : FormatKind → List Nat → Except CodeErr Unit
  | .raw, code =>
    if code.length = 0 then .error .malformedCode
    else
      let numFunctions := code.getD 0 0
      if code.length < numFunctions * 2 + 1 then .error .malformedCode
      else .ok ()
  | .wasm, code => FormatKind.validate .wasm code
  | .custom, code => FormatKind.validate .custom code

/-- Model of the `CodeValidator` of `src/vm/validator.go` lines 36-59: size
limit and format registry, with no TEE capability table. -/
structure VmCodeValidator where
  maxSize : Nat
  formats : List (Nat × FormatKind)

/-- Model of `NewCodeValidator` of `src/vm/validator.go` lines 47-59. -/
def NewVmCodeValidator (maxSize : Nat) : VmCodeValidator :=
  { maxSize := maxSize
    formats := [(FormatRaw, .raw), (FormatWasm, .wasm), (FormatCustom, .custom)] }

/-- Model of `ValidateCode` of `src/vm/validator.go` lines 62-93: size limit,
minimum header length, magic bytes, format registry lookup, format-specific
body check; this revision has no TEE-related checks. -/
def VmValidateCode (cv : VmCodeValidator) (code : List Nat) : Except CodeErr Unit :=
  if code.length > cv.maxSize then .error .codeTooLarge
  else if code.length < HeaderSize then .error .invalidHeader
  else if !(code.take 8 == HeaderMagic) then .error .invalidHeader
  else
    let format := code.getD 8 0
    match mapGet cv.formats format with
    | none => .error .unsupportedFormat
    | some fv => VmFormatKind.validate fv (code.drop HeaderSize)

/-- The accepted blob of claim C9: magic, header `[fmt=2 (wasm), ver=1,
tee=1 (SGX), 5 reserved bytes]`, then the WASM module magic. -/
def goodWasmBlob : List Nat := HeaderMagic ++ [2, 1, 1, 0, 0, 0, 0, 0] ++ wasmMagic

/-- A blob whose format id 3 (custom) is registered but excluded by the
capability table of its TEE type 1 (SGX supports WASM only). -/
def sgxCustomBlob : List Nat := HeaderMagic ++ [3, 1, 1, 0, 0, 0, 0, 0] ++ [0, 0, 0, 0]

theorem insertAsc_length (x : Nat) (l : List Nat) :
    (insertAsc x l).length = l.length + 1 := by
  induction l with
  | nil => rfl
  | cons y ys ih =>
    unfold insertAsc
    by_cases h : x ≤ y
    · rw [if_pos h]; rfl
    · rw [if_neg h]; simp [ih]

theorem sortAsc_length (l : List Nat) : (sortAsc l).length = l.length := by
  induction l with
  | nil => rfl
  | cons x xs ih =>
    show (insertAsc x (sortAsc xs)).length = xs.length + 1
    rw [insertAsc_length, ih]

/-- Claim C1, counterexample: on the spec's own even-count example, times
100, 104, 108 and 112, `verifyTimeStamps` does not return 104 (the lower
median); it returns 108. -/
theorem verifyTimeStamps_even_not_lower_median :
    verifyTimeStamps evenStamps ≠ Except.ok 104 := by
  have h : verifyTimeStamps evenStamps = Except.ok 108 := rfl
  rw [h]
  intro hcontra
  exact absurd (Except.ok.inj hcontra) (by decide)

/-- Claim C1, amended: for every list of at least 3 stamps (all of which the
source's placeholder verifier accepts), `verifyTimeStamps` returns the element
at index `⌊n/2⌋` of the ascending sort of the time values, which is the UPPER
median when the count is even; in particular for stamp times
[100, 104, 108, 112] the accepted time is 108, not 104. -/
theorem verifyTimeStamps_returns_upper_median (stamps : List RoughtimeStamp)
    (h : 3 ≤ stamps.length) :
    verifyTimeStamps stamps = .ok (medianAtHalf (stamps.map (·.time))) ∧
    medianAtHalf [100, 104, 108, 112] = 108 := by
  constructor
  · unfold verifyTimeStamps medianAtHalf
    rw [if_neg (by omega)]
    rw [if_neg (by simp [verifyRoughtimeStamp])]
    show Except.ok ((sortAsc _).getD ((sortAsc _).length / 2) 0) = _
    rw [sortAsc_length, List.length_map]
  · rfl

/-- Witness for the amended claim C1 at the concrete even-count stamp list. -/
theorem verifyTimeStamps_returns_upper_median_witness :
    verifyTimeStamps evenStamps = .ok (medianAtHalf (evenStamps.map (·.time))) ∧
    medianAtHalf [100, 104, 108, 112] = 108 :=
  verifyTimeStamps_returns_upper_median evenStamps (by decide)

/-- Claim C2: the staleness window is NOT symmetric in the code. A median time
100 seconds ahead of the block time (600 against 500) is inside the claimed
300-second window but is rejected, because the `uint64` subtraction
`currentTime - stampTime` wraps around to `2 ^ 64 - 100` and the source's
absolute-value branch is dead code on an unsigned integer. The claimed
backward direction does behave as stated: drift 350 behind (150 against 500)
is rejected and drift 250 behind is accepted. -/
theorem isTimeStampValid_rejects_forward_drift :
    isTimeStampValid 600 500 = false ∧ ((600 : Int) - 500).natAbs ≤ 300 ∧
    isTimeStampValid 150 500 = false ∧ isTimeStampValid 250 500 = true := by
  refine ⟨?_, by decide, ?_, ?_⟩ <;> rfl

theorem verifyCyclesFrom_ok :
    ∀ (keys visited : List String), verifyCyclesFrom keys visited [] = .ok ()
  | [], _ => rfl
  | id :: keys, visited => by
    unfold verifyCyclesFrom dfsEventCycle
    by_cases h : id ∈ visited
    · simp [h, verifyCyclesFrom_ok keys visited]
    · simp [h, verifyCyclesFrom_ok keys (id :: visited)]

/-- Claim C3: the code contains no event-ordering constraint. A batch whose
two events to the same target carry strictly decreasing ordering tokens
(priorities 2 then 1) passes `VerifyBatch`; it is not rejected with the
declared-but-never-returned `ErrInvalidEventOrder`. -/
theorem batch_accepts_decreasing_event_order :
    VerifyBatch allObjects decreasingPriorityBatch = .ok () ∧
    VerifyBatch allObjects decreasingPriorityBatch ≠ .error .invalidEventOrder := by
  constructor
  · rfl
  · intro h
    rw [show VerifyBatch allObjects decreasingPriorityBatch = .ok () from rfl] at h
    exact Except.noConfusion h

/-- Claim C4: the cycle detector can never fire. The DFS of
`src/verifier/batch.go` derives no edges from the queued events (the loop body
is empty), so `verifyNoEventCycles` succeeds on every event queue, and in
particular a batch realising the mutually-recursive routing A to B to A is
accepted rather than rejected with `CircularDependency`. -/
theorem batch_never_rejects_cyclic_routing :
    (∀ queue : List (String × List EventInfo), verifyNoEventCycles queue = .ok ()) ∧
    VerifyBatch allObjects cyclicRoutingBatch = .ok () := by
  constructor
  · intro queue
    exact verifyCyclesFrom_ok (queue.map (·.1)) []
  · rfl

/-- Claim C5: a batch of more than 256 actions is rejected with `BatchLimit`
immediately; the verdict is the same for every object store and for arbitrary
actions, so no per-action verification or conflict analysis can have run. -/
theorem verifyBatch_batchLimit (st : ObjectStore) (acts : List Action)
    (h : acts.length > MaxBatchSize) : VerifyBatch st acts = .error .batchLimit := by
  unfold VerifyBatch
  rw [if_pos h]

/-- Witness for claim C5 at a concrete batch of 257 individually valid
creations. -/
theorem verifyBatch_batchLimit_witness :
    VerifyBatch noObjects (List.replicate 257 (Action.createObject "x" [] [])) =
      .error .batchLimit :=
  verifyBatch_batchLimit noObjects (List.replicate 257 (Action.createObject "x" [] []))
    (by simp only [List.length_replicate, MaxBatchSize, gt_iff_lt]; omega)

theorem mapGet_mapSet_self {κ α : Type} [BEq κ] [LawfulBEq κ]
    (m : List (κ × α)) (k : κ) (v : α) : mapGet (mapSet m k v) k = some v := by
  simp [mapGet, mapSet, List.find?]

/-- Claim C6: two creations of the same object ID make the analysis pass
reject the whole batch with `DuplicateAction` at the second creation, and a
create-then-delete-then-create sequence for one ID makes it reject with
`ConflictingAction` (at the delete, which conflicts with the earlier create);
both verdicts are independent of the object store and of the remaining
actions. -/
theorem batch_duplicate_and_conflicting_create (id : String) (c1 s1 c2 s2 : List Nat)
    (rest : List Action) (st : ObjectStore)
    (hdup : rest.length + 2 ≤ 256) (hcon : rest.length + 3 ≤ 256) :
    VerifyBatch st (.createObject id c1 s1 :: .createObject id c2 s2 :: rest) =
      .error .duplicateAction ∧
    VerifyBatch st
        (.createObject id c1 s1 :: .deleteObject id :: .createObject id c2 s2 :: rest) =
      .error .conflictingAction := by
  constructor
  · unfold VerifyBatch
    rw [if_neg (by simp only [List.length_cons, MaxBatchSize, gt_iff_lt]; omega)]
    simp [analyzeActions, mapGet, mapSet, List.find?]
  · unfold VerifyBatch
    rw [if_neg (by simp only [List.length_cons, MaxBatchSize, gt_iff_lt]; omega)]
    simp [analyzeActions, mapGet, mapSet, List.find?]

/-- Witness for claim C6 at a concrete object ID and empty payloads. -/
theorem batch_duplicate_and_conflicting_create_witness :
    VerifyBatch noObjects
        [.createObject "obj" [] [], .createObject "obj" [] []] =
      .error .duplicateAction ∧
    VerifyBatch noObjects
        [.createObject "obj" [] [], .deleteObject "obj", .createObject "obj" [] []] =
      .error .conflictingAction :=
  batch_duplicate_and_conflicting_create "obj" [] [] [] [] [] noObjects
    (by decide) (by decide)

/-- Claim C7: the at-least-one-TEE invariant is not enforced. The update of
region `r` that removes its only TEE address and adds none passes
`UpdateRegionAction.Verify`, and `UpdateRegionAction.Execute` succeeds
(result `Success = true`) leaving the stored TEE list empty. -/
theorem updateRegion_can_empty_tee_list :
    UpdateRegionAction.Verify removeOnlyTEE = .ok () ∧
    (UpdateRegionAction.Execute regionStateOneTEE removeOnlyTEE).toOption.map
        (fun p => (p.1 "r", p.2)) = some (some [], true) := by
  exact ⟨rfl, rfl⟩

/-- Claim C8, counterexample: for the concrete pair whose two attestations
are both authorized for the region and differ only in `Timestamp`, pair
verification returns `ErrInvalidAttestation`, not the distinct
`ErrAttestationMismatch` declared in `src/storage/errors.go`. -/
theorem attestation_mismatch_reported_as_invalid :
    verifyAttestationPair "now" pairTees attA attB = .error .invalidAttestation ∧
    verifyAttestationPair "now" pairTees attA attB ≠ .error .attestationMismatch := by
  refine ⟨rfl, ?_⟩
  intro h
  rw [show verifyAttestationPair "now" pairTees attA attB = .error .invalidAttestation
    from rfl] at h
  exact absurd (Except.error.inj h) (by decide)

/-- Claim C8, amended: whenever the two attestations' timestamps differ and
both enclave IDs are authorized for the region, pair verification rejects
with the generic `InvalidAttestation` error (the source never returns the
dedicated `AttestationMismatch` error). -/
theorem attestation_pair_timestamp_mismatch (now : String) (tees : List (List Nat))
    (a0 a1 : TEEAttestation)
    (h0 : tees.any (fun tee => tee == a0.enclaveID) = true)
    (h1 : tees.any (fun tee => tee == a1.enclaveID) = true)
    (hts : a0.timestamp ≠ a1.timestamp) :
    verifyAttestationPair now tees a0 a1 = .error .invalidAttestation := by
  unfold verifyAttestationPair verifyAttestation
  simp [h0, h1, isTimeInWindow, hts]
  rfl

/-- Witness for the amended claim C8 at the concrete mismatching pair. -/
theorem attestation_pair_timestamp_mismatch_witness :
    verifyAttestationPair "t0" pairTees attA attB = .error .invalidAttestation :=
  attestation_pair_timestamp_mismatch "t0" pairTees attA attB
    (by decide) (by decide) (by decide)

/-- Claim C9: the well-formed SGX WASM blob (magic, format 2, version 1, TEE
type 1, reserved bytes, WASM module magic) is accepted, and every blob that
passes the size, header-length, magic and format-registration checks but
whose TEE type's capability table does not list its format id is rejected
with `InvalidTEEFormat`. -/
theorem validateCode_tee_capability (maxSize : Nat) (code : List Nat) (fs : List Nat)
    (hsize : code.length ≤ maxSize) (hlen : HeaderSize ≤ code.length)
    (hmagic : code.take 8 = HeaderMagic)
    (hformat : (mapGet (NewCodeValidator maxSize).formats (code.getD 8 0)).isSome = true)
    (htee : mapGet (NewCodeValidator maxSize).teeFormats (code.getD 10 0) = some fs)
    (hnotin : fs.any (fun f => f == code.getD 8 0) = false) :
    ValidateCode (NewCodeValidator maxSize) code = .error .invalidTEEFormat ∧
    ValidateCode (NewCodeValidator 1048576) goodWasmBlob = .ok () := by
  constructor
  · unfold ValidateCode
    rw [if_neg (show ¬ code.length > (NewCodeValidator maxSize).maxSize by
      simp only [NewCodeValidator, gt_iff_lt, not_lt]; exact hsize)]
    rw [if_neg (show ¬ code.length < HeaderSize by omega)]
    rw [if_neg (by simp [hmagic])]
    obtain ⟨fv, hfv⟩ := Option.isSome_iff_exists.mp hformat
    have hsup : isFormatSupportedByTEE (NewCodeValidator maxSize)
        (code.getD 8 0) (code.getD 10 0) = false := by
      unfold isFormatSupportedByTEE
      rw [htee]
      exact hnotin
    simp only [hfv, hsup]
    simp
  · rfl

/-- Witness for claim C9: a registered custom-format blob whose TEE type is
SGX (capability table `[wasm]` excludes custom) is rejected with
`InvalidTEEFormat`, and the SGX WASM blob is accepted. -/
theorem validateCode_tee_capability_witness :
    ValidateCode (NewCodeValidator 100) sgxCustomBlob = .error .invalidTEEFormat ∧
    ValidateCode (NewCodeValidator 1048576) goodWasmBlob = .ok () :=
  validateCode_tee_capability 100 sgxCustomBlob [FormatWasm]
    (by decide) (by decide) (by decide) (by decide) (by decide) (by decide)

/-- Claim C10: in both revisions of the code validator, a blob longer than the
configured `maxSize` is rejected with `CodeTooLarge` regardless of its bytes:
the size check precedes the magic, header and format checks. -/
theorem validateCode_size_check_first (maxSize : Nat) (code : List Nat)
    (h : code.length > maxSize) :
    ValidateCode (NewCodeValidator maxSize) code = .error .codeTooLarge ∧
    VmValidateCode (NewVmCodeValidator maxSize) code = .error .codeTooLarge := by
  constructor
  · unfold ValidateCode
    rw [if_pos (show code.length > (NewCodeValidator maxSize).maxSize from h)]
  · unfold VmValidateCode
    rw [if_pos (show code.length > (NewVmCodeValidator maxSize).maxSize from h)]

/-- Witness for claim C10 at a concrete oversized blob whose header is also
malformed: the verdict is `CodeTooLarge`, not a header error. -/
theorem validateCode_size_check_first_witness :
    ValidateCode (NewCodeValidator 4) [9, 9, 9, 9, 9] = .error .codeTooLarge ∧
    VmValidateCode (NewVmCodeValidator 4) [9, 9, 9, 9, 9] = .error .codeTooLarge :=
  validateCode_size_check_first 4 [9, 9, 9, 9, 9] (by decide)

end RhombusVM
